import Mathlib

/- Verification development for the agentTemplate repository.

   The code under verification:
   * `src/testagent/backend/mcp_servers/math_tools/server.py` — the seven math
     tool handlers (`add`, `subtract`, `multiply`, `divide`, `power`,
     `square_root`, `solve_equation`).
   * `src/testagent/backend/orchestrators/test_agent_orchestrator/graph.py` —
     the LangGraph conversation loop (`call_llm`, `call_tool`,
     `should_call_tool`, the workflow edges, and the two `llm_tools` /
     `llm_with_tools` bindings).
   * `src/testagent/backend/orchestrators/test_agent_orchestrator/state.py` —
     the message-log reducer (`lambda x, y: x + y`).

   Embedding conventions:
   * Python `str` values that the code inspects character by character are
     embedded as `List Char` (`PyStr`); every string primitive the code uses
     (`replace` with one-character patterns, `split`, `in`) is re-implemented
     by structural recursion so that concrete runs reduce in the kernel.
   * Python numbers (ints and IEEE doubles) are embedded as `ℚ`.  Every
     numeric computation the claims evaluate is exact in IEEE double
     arithmetic at the inputs concerned, so the rational embedding is
     faithful there; `fmtNum` is the embedding's rendering of Python float
     formatting.
   * A Python function that may raise is embedded with `Except String`
     (`.error e` = a raised exception whose `str` is `e`); a function that
     catches its own exceptions and returns an error dictionary is embedded
     with a dedicated sum type (`SolveRes`). -/

namespace AgentTemplate

/-! ## Python string primitives (structurally recursive over `List Char`) -/

/-- Embedding of Python `str` for strings the code parses. -/
abbrev PyStr := List Char

/-- Python `s.replace(c, '')` for a one-character pattern: drop every
occurrence of `c`. -/
def removeChar (c : Char) (s : PyStr) : PyStr :=
  s.filter (fun d => ! (d = c))

/-- Python `s.replace(c, d)` for one-character pattern and replacement. -/
def replaceChar (c d : Char) (s : PyStr) : PyStr :=
  s.map (fun e => if e = c then d else e)

/-- Python `s.split(c)` for a one-character separator: always returns at
least one part, and `n` separators yield `n + 1` parts. -/
def charSplit (c : Char) : PyStr → List PyStr
  | [] => [[]]
  | e :: rest =>
    let r := charSplit c rest
    if e = c then [] :: r
    else
      match r with
      | [] => [[e]]
      | hd :: tl => (e :: hd) :: tl

/-- Python `c in s` for a single character `c`. -/
def containsChar (c : Char) (s : PyStr) : Bool :=
  s.contains c

/-- Python `s.split(c, 1)` restricted to the case the code exercises
(`c` occurs in `s`): the part before the first `c` and the rest after it.
`graph.py`/`server.py` only call this under a `c in s` guard. -/
def splitOnceChar (c : Char) : PyStr → PyStr × PyStr
  | [] => ([], [])
  | e :: rest =>
    if e = c then ([], rest)
    else
      let p := splitOnceChar c rest
      (e :: p.1, p.2)

/-! ## Python `float()` and float rendering -/

/-- Numeric value of a decimal digit character. -/
def digitVal (c : Char) : ℕ := c.toNat - 48

/-- Value of a digit string read in base 10. -/
def digitsVal (ds : PyStr) : ℕ :=
  ds.foldl (fun n c => 10 * n + digitVal c) 0

/-- ASCII whitespace stripped by Python `float()` before parsing. -/
def isPyWs (c : Char) : Bool :=
  c = ' ' || c = '\t' || c = '\n' || c = '\r' || c = '\x0B' || c = '\x0C'

/-- Python `s.strip()` restricted to ASCII whitespace. -/
def stripWs (s : PyStr) : PyStr :=
  ((s.dropWhile isPyWs).reverse.dropWhile isPyWs).reverse

/-- Split an optional leading sign off a numeric token:
`(negative?, rest)`. -/
def splitSign : PyStr → Bool × PyStr
  | '-' :: r => (true, r)
  | '+' :: r => (false, r)
  | r => (false, r)

/-- Scan of `underscoresOk`, carrying the previous character: every
underscore must sit between two digits (CPython's rule for numeric
literals accepted by `float()`). -/
def underscoresOkAux (prev : Char) : PyStr → Bool
  | [] => true
  | c :: rest =>
    if c = '_' then
      (prev.isDigit && (match rest with | d :: _ => d.isDigit | [] => false))
        && underscoresOkAux c rest
    else underscoresOkAux c rest

/-- CPython's underscore rule for `float()` input: each `_` is directly
preceded and followed by a digit. -/
def underscoresOk : PyStr → Bool
  | [] => true
  | c :: rest => (! (c = '_')) && underscoresOkAux c rest

/-- The optional exponent suffix after `e`/`E`: an optional sign and a
non-empty run of digits, scaling the mantissa by the matching power of
ten. -/
def parseExpPart (m : ℚ) (cs : PyStr) : Option ℚ :=
  let p := splitSign cs
  if p.2.isEmpty then none
  else if ! p.2.all Char.isDigit then none
  else some (if p.1 then m / (10 : ℚ) ^ digitsVal p.2 else m * (10 : ℚ) ^ digitsVal p.2)

/-- The unsigned, underscore-free body of a `float()` token:
`digits [. digits] [(e|E) [sign] digits]` with at least one mantissa
digit. -/
def parseMantExp (cs : PyStr) : Option ℚ :=
  let intPart := cs.takeWhile Char.isDigit
  let after := cs.dropWhile Char.isDigit
  match after with
  | [] => if intPart.isEmpty then none else some (digitsVal intPart : ℚ)
  | '.' :: fr =>
    let fracPart := fr.takeWhile Char.isDigit
    let after2 := fr.dropWhile Char.isDigit
    if intPart.isEmpty && fracPart.isEmpty then none
    else
      let m : ℚ := (digitsVal intPart : ℚ) + (digitsVal fracPart : ℚ) / (10 : ℚ) ^ fracPart.length
      match after2 with
      | [] => some m
      | c :: rest => if c = 'e' || c = 'E' then parseExpPart m rest else none
  | c :: rest =>
    if (c = 'e' || c = 'E') && ! intPart.isEmpty then
      parseExpPart (digitsVal intPart : ℚ) rest
    else none

/-- Embedding of Python `float(s)` on its rational-valued fragment:
optional surrounding ASCII whitespace, an optional sign, decimal digits
with underscores between digits, an optional fractional part and an
optional `e`/`E` exponent, with at least one mantissa digit — every such
input is accepted with its exact rational value (exact where the claims
evaluate it; Python additionally rounds to the nearest double).  `none`
models the `ValueError` Python raises on any other input, in particular
on the empty string.  Two families Python accepts lie outside the
rational embedding and are also mapped to `none`: `inf`/`infinity`/`nan`
(values that are not rational) and non-ASCII Unicode digits; no claim's
theorem depends on `pyFloat`'s behaviour on them. -/
def pyFloat (s : PyStr) : Option ℚ :=
  let p := splitSign (stripWs s)
  if ! underscoresOk p.2 then none
  else (parseMantExp (removeChar '_' p.2)).map (fun q => if p.1 then -q else q)

/-- The embedding's rendering of a Python float inside an f-string
(`f"{result}"`).  Integral values print as Python prints integral floats
(`4.0`); non-integral values are rendered as exact fractions, standing in
for Python's decimal expansion.  No claim depends on the exact rendering
of a non-integral value. -/
def fmtNum (q : ℚ) : String :=
  if q.den = 1 then toString q.num ++ ".0"
  else toString q.num ++ "/" ++ toString q.den

/-! ## math_tools/server.py: tool handlers -/

/-- The dictionary a successful math tool handler returns:
`operation`, `expression`, `result`, `steps`. -/
structure ToolOutput where
  operation : String
  expression : String
  result : ℚ
  steps : List String
deriving DecidableEq

/-- `add(a, b)` from server.py. -/
def add (a b : ℚ) : Except String ToolOutput :=
  let result := a + b
  .ok {
    operation := "addition"
    expression := fmtNum a ++ " + " ++ fmtNum b
    result := result
    steps := [
      "Step 1: Add " ++ fmtNum a ++ " and " ++ fmtNum b,
      fmtNum a ++ " + " ++ fmtNum b ++ " = " ++ fmtNum result,
      "Final result: " ++ fmtNum result] }

/-- `subtract(a, b)` from server.py. -/
def subtract (a b : ℚ) : Except String ToolOutput :=
  let result := a - b
  .ok {
    operation := "subtraction"
    expression := fmtNum a ++ " - " ++ fmtNum b
    result := result
    steps := [
      "Step 1: Subtract " ++ fmtNum b ++ " from " ++ fmtNum a,
      fmtNum a ++ " - " ++ fmtNum b ++ " = " ++ fmtNum result,
      "Final result: " ++ fmtNum result] }

/-- `multiply(a, b)` from server.py. -/
def multiply (a b : ℚ) : Except String ToolOutput :=
  let result := a * b
  .ok {
    operation := "multiplication"
    expression := fmtNum a ++ " × " ++ fmtNum b
    result := result
    steps := [
      "Step 1: Multiply " ++ fmtNum a ++ " by " ++ fmtNum b,
      fmtNum a ++ " × " ++ fmtNum b ++ " = " ++ fmtNum result,
      "Final result: " ++ fmtNum result] }

/-- `divide(a, b)` from server.py.  The handler raises
`ValueError("Cannot divide by zero")` when `b == 0` (embedded as
`.error`); it does not return an error dictionary. -/
def divide (a b : ℚ) : Except String ToolOutput :=
  if b = 0 then .error "Cannot divide by zero"
  else
    let result := a / b
    .ok {
      operation := "division"
      expression := fmtNum a ++ " ÷ " ++ fmtNum b
      result := result
      steps := [
        "Step 1: Divide " ++ fmtNum a ++ " by " ++ fmtNum b,
        fmtNum a ++ " ÷ " ++ fmtNum b ++ " = " ++ fmtNum result,
        "Final result: " ++ fmtNum result] }

/-- Python `base ** exponent` on the rational embedding.  Integer
exponents are computed exactly (with Python's `ZeroDivisionError` for
`0 ** negative`); a non-integer exponent produces an irrational value
that the rational embedding cannot represent, and no claim evaluates
one. -/
def pyPow (b e : ℚ) : Except String ℚ :=
  if e.den = 1 then
    if 0 ≤ e.num then .ok (b ^ e.num.toNat)
    else if b = 0 then .error "0.0 cannot be raised to a negative power"
    else .ok (b ^ e.num)
  else .error "non-integer exponent outside the rational embedding"

/-- `power(base, exponent)` from server.py. -/
def power (base exponent : ℚ) : Except String ToolOutput :=
  match pyPow base exponent with
  | .error e => .error e
  | .ok result =>
    .ok {
      operation := "exponentiation"
      expression := fmtNum base ++ "^" ++ fmtNum exponent
      result := result
      steps := [
        "Step 1: Raise " ++ fmtNum base ++ " to the power of " ++ fmtNum exponent,
        fmtNum base ++ "^" ++ fmtNum exponent ++ " = " ++ fmtNum result,
        "Final result: " ++ fmtNum result] }

/-- Stand-in for `math.sqrt` on the rational embedding: exact on
perfect-square rationals, which covers every input a claim evaluates.
No claim depends on the value at other inputs. -/
def ratSqrt (q : ℚ) : ℚ :=
  (Nat.sqrt q.num.toNat : ℚ) / (Nat.sqrt q.den : ℚ)

/-- `square_root(number)` from server.py.  The handler raises
`ValueError("Cannot calculate square root of a negative number")` when
`number < 0` (embedded as `.error`); it does not return an error
dictionary. -/
def square_root (number : ℚ) : Except String ToolOutput :=
  if number < 0 then .error "Cannot calculate square root of a negative number"
  else
    let result := ratSqrt number
    .ok {
      operation := "square_root"
      expression := "√" ++ fmtNum number
      result := result
      steps := [
        "Step 1: Find the square root of " ++ fmtNum number,
        "√" ++ fmtNum number ++ " = " ++ fmtNum result,
        "Final result: " ++ fmtNum result] }

/-! ## math_tools/server.py: solve_equation

`solve_equation` is the one handler that catches its own exceptions: its
body runs inside `try ... except Exception as e` and on any raised error
returns the dictionary
`{"operation": "solve_equation", "equation": ..., "error": str(e),
  "message": "Failed to solve equation. ..."}`.
`SolveRes.err equation error message` embeds that dictionary and
`SolveRes.ok equation result steps` embeds the success dictionary. -/

/-- Result dictionary of `solve_equation`: success carries `equation`,
`result` and `steps`; the error dictionary carries `equation`, `error`
(`str` of the caught exception) and the fixed `message` field. -/
inductive SolveRes where
  | ok (equation : PyStr) (result : ℚ) (steps : List String)
  | err (equation : PyStr) (error : String) (message : String)
deriving DecidableEq

/-- The fixed `message` field of `solve_equation`'s error dictionary. -/
def failMsg : String :=
  "Failed to solve equation. Make sure it\x27s in a supported format like \x272x + 3 = 7\x27."

/-- `str` of the `ValueError` Python raises when `float(s)` cannot parse
`s`: `could not convert string to float: <repr of s>`. -/
def floatErr (s : PyStr) : String :=
  "could not convert string to float: \x27" ++ String.mk s ++ "\x27"

/-- The `if '+' in left:` branch of `solve_equation`, entered with
`'x' in left` and `'+' in left` already established.  Mirrors, in
order: `a_part, b_part = left.split('+', 1)`;
`a = float(a_part.replace('x', '')) if 'x' in a_part else 1.0`;
`b = float(b_part)`; `c = float(right)`; `x = (c - b) / a` (a Python
`ZeroDivisionError` when `a == 0.0`); then the success dictionary with
its step list. -/
def solve_additive (equation left right : PyStr) : SolveRes :=
  let a_part := (splitOnceChar '+' left).1
  let b_part := (splitOnceChar '+' left).2
  let aOpt : Option ℚ :=
    if containsChar 'x' a_part then pyFloat (removeChar 'x' a_part) else some 1
  match aOpt, pyFloat b_part, pyFloat right with
  | none, _, _ => .err equation (floatErr (removeChar 'x' a_part)) failMsg
  | some _, none, _ => .err equation (floatErr b_part) failMsg
  | some _, some _, none => .err equation (floatErr right) failMsg
  | some a, some b, some c =>
    if a = 0 then .err equation "float division by zero" failMsg
    else
      let x := (c - b) / a
      .ok equation x [
        "Step 1: Start with the equation: " ++ String.mk equation,
        "Step 2: Isolate the variable x",
        String.mk left ++ " = " ++ String.mk right,
        String.mk (replaceChar '+' '-' left) ++ " = " ++ String.mk right ++ " - " ++ fmtNum b,
        fmtNum a ++ "x = " ++ fmtNum (c - b),
        "x = (" ++ fmtNum c ++ " - " ++ fmtNum b ++ ") / " ++ fmtNum a,
        "x = " ++ fmtNum x,
        "Final solution: x = " ++ fmtNum x]

/-- The body of `solve_equation` after the `=`-split succeeded with
exactly two parts: `if 'x' not in left: raise`; `if '+' in left:`
(handled by `solve_additive`); `else: raise ValueError("Unsupported
equation format")`. -/
def solve_core (equation left right : PyStr) : SolveRes :=
  if ! containsChar 'x' left then
    .err equation "Equation must contain \x27x\x27 on the left side" failMsg
  else if containsChar '+' left then
    solve_additive equation left right
  else
    .err equation "Unsupported equation format" failMsg

/-- `solve_equation(equation)` from server.py:
`parts = equation.replace(' ', '').split('=')`; exactly two parts are
required, then `solve_core` runs on them; every raised exception is
caught by the surrounding `except` and becomes an error dictionary. -/
def solve_equation (equation : PyStr) : SolveRes :=
  match charSplit '=' (removeChar ' ' equation) with
  | [left, right] => solve_core equation left right
  | _ => .err equation "Equation must contain exactly one \x27=\x27" failMsg

/-! ## graph.py / state.py: messages, state and the conversation loop -/

/-- A tool call emitted by the model: `{"name": ..., "args": ..., "id": ...}`.
Arguments are carried opaquely; the orchestrator forwards them to the tool
transport without inspecting them. -/
structure ToolCall where
  id : String
  name : String
  args : List (String × String)
deriving DecidableEq

/-- The langchain message variants the orchestrator handles:
`HumanMessage`, `SystemMessage`, `AIMessage` (with its `tool_calls`
list) and `ToolMessage` (with its `tool_call_id`). -/
inductive Msg where
  | user (content : String)
  | system (content : String)
  | ai (content : String) (tool_calls : List ToolCall)
  | tool (content : String) (tool_call_id : String)
deriving DecidableEq

/-- The `messages` reducer of `TestAgentState` (state.py):
`Annotated[Sequence[BaseMessage], lambda x, y: x + y]` — a node's
returned message list is concatenated onto the stored one. -/
def applyUpdate (msgs update : List Msg) : List Msg := msgs ++ update

/-- `True` exactly for `SystemMessage` values
(`isinstance(m, SystemMessage)`). -/
def isSystemMsg : Msg → Bool
  | .system _ => true
  | _ => false

/-- `True` exactly for `AIMessage` values. -/
def isAIMsg : Msg → Bool
  | .ai _ _ => true
  | _ => false

/-- `any(isinstance(m, SystemMessage) for m in messages)`. -/
def hasSystem (msgs : List Msg) : Bool := msgs.any isSystemMsg

/-- The `MATH_SYSTEM_PROMPT` constant of graph.py (whitespace-faithful
up to the embedding of line breaks as `\n`). -/
def MATH_SYSTEM_PROMPT : String :=
  "You are a helpful math tutor that helps students solve mathematical problems step by step.\nYou have access to various math tools that can help with calculations. Here\x27s how to use them:\n\n1. For basic arithmetic (addition, subtraction, multiplication, division):\n   - Use the appropriate tool (add, subtract, multiply, divide)\n   \n2. For exponents and roots:\n   - Use \x27power\x27 for exponents (e.g., 2^3)\n   - Use \x27square_root\x27 for square roots (e.g., √9)\n   \n3. For solving equations:\n   - Use \x27solve_equation\x27 for linear equations (e.g., \x272x + 3 = 7\x27)\n\nAlways break down complex problems into smaller, manageable steps. Show your work and explain each step clearly.\nWhen using tools, make sure to provide all required parameters with the correct types.\n"

/-- The invocation-local message list `call_llm` builds: the system
prompt is prepended only when no `SystemMessage` is already present,
and only on this local copy, never on the stored state. -/
def call_llm_input (msgs : List Msg) : List Msg :=
  if hasSystem msgs then msgs else .system MATH_SYSTEM_PROMPT :: msgs

/-- The state update `call_llm` returns: `{"messages": [response]}`,
where `response = llm_with_tools.invoke(messages)`.  The language model
client is the external collaborator `invoke`. -/
def call_llm_update (invoke : List Msg → Msg) (msgs : List Msg) : List Msg :=
  [invoke (call_llm_input msgs)]

/-! ### call_tool -/

/-- What `format_tool_response` reads out of the JSON-decoded tool
response dictionary, with the Python `.get` defaults already applied:
`hasError` is `"error" in tool_result`; `messageField` is
`tool_result.get("message", "Unknown error")`; `operation`,
`expression`, `steps` default to `"calculation"`, `""`, `[]`; and
`resultText` is the rendering of `tool_result.get("result", "")`
(empty when the field is absent, `None` is not produced by the math
server). -/
structure ParsedTool where
  hasError : Bool
  messageField : String
  operation : String
  expression : String
  resultText : String
  steps : List String
deriving DecidableEq

/-- Python `str.capitalize()`: first character upper-cased, the rest
lower-cased. -/
def pyCapitalize (s : String) : String :=
  match s.data with
  | [] => ""
  | c :: rest => String.mk (c.toUpper :: rest.map Char.toLower)

/-- `format_tool_response(tool_name, tool_result)` from graph.py. -/
def format_tool_response (tool_name : String) (d : ParsedTool) : String :=
  if d.hasError then "Error in " ++ tool_name ++ ": " ++ d.messageField
  else
    let header := "## " ++ pyCapitalize d.operation ++ ": " ++ d.expression
    let stepLines :=
      if d.steps.isEmpty then ([] : List String)
      else "### Steps:" :: (d.steps.filter (fun s => ! (s = ""))).map (fun s => "- " ++ s)
    let resLine := if ! (d.resultText = "") then ["\n**Final Result:** " ++ d.resultText] else []
    String.intercalate "\n" (header :: (stepLines ++ resLine))

/-- Outcome of `mcp_client.call_tool(f"math_tools.{tool_name}", tool_args)`:
either the call raised (any exception, e.g. an unknown-tool lookup
failure inside the MCP client) or it returned a response text. -/
inductive TransportOutcome where
  | raised (e : String)
  | returned (txt : String)

/-- One iteration of `call_tool`'s `for tool_call in ...` loop: invoke
the transport; on success JSON-decode the text (`parse txt = none`
embeds `json.JSONDecodeError`) and format it; every branch appends
exactly one `ToolMessage` whose `tool_call_id` is the call's id. -/
def handle_tool_call (transport : ToolCall → TransportOutcome)
    (parse : String → Option ParsedTool) (tc : ToolCall) : Msg :=
  match transport tc with
  | .raised e => .tool ("Error calling tool " ++ tc.name ++ ": " ++ e) tc.id
  | .returned txt =>
    match parse txt with
    | some d => .tool (format_tool_response tc.name d) tc.id
    | none => .tool ("Tool response could not be parsed: " ++ txt) tc.id

/-- The `tool_calls` list of the last stored message:
`ai_message = state["messages"][-1]` then
`getattr(ai_message, "tool_calls", [])`.  The graph only enters
`call_tool` right after `call_llm` appended the model response, so the
list is never empty there and its last element is that response. -/
def lastToolCalls (msgs : List Msg) : List ToolCall :=
  match msgs.getLast? with
  | some (.ai _ tcs) => tcs
  | _ => []

/-- The state update `call_tool` returns: one `ToolMessage` per
`ToolCall` of the last message, produced sequentially in listed
order. -/
def call_tool (transport : ToolCall → TransportOutcome)
    (parse : String → Option ParsedTool) (msgs : List Msg) : List Msg :=
  (lastToolCalls msgs).map (handle_tool_call transport parse)

/-! ### Routing and the workflow -/

/-- The nodes of the compiled workflow plus LangGraph's `END`. -/
inductive Node where
  | call_llm_node
  | call_tool_node
  | endNode
deriving DecidableEq

/-- LangGraph's `END` sentinel string. -/
def ROUTE_END : String := "__end__"

/-- `should_call_tool(state)` from graph.py: route `"call_tool"` when
the last message has a non-empty `tool_calls` attribute (only
`AIMessage` has one), `"call_llm"` when it is a `ToolMessage`, `END`
otherwise. -/
def should_call_tool (msgs : List Msg) : String :=
  match msgs.getLast? with
  | some (.ai _ tcs) => if ! tcs.isEmpty then "call_tool" else ROUTE_END
  | some (.tool _ _) => "call_llm"
  | _ => ROUTE_END

/-- The route table of `workflow.add_conditional_edges("call_llm_node",
should_call_tool, {"call_tool": "call_tool_node", END: END})`.  A route
string outside the table (`"call_llm"`) has no target: LangGraph would
fail, and `none` embeds that. -/
def conditional_targets (route : String) : Option Node :=
  if route = "call_tool" then some .call_tool_node
  else if route = ROUTE_END then some .endNode
  else none

/-- Where control goes after `call_llm_node`. -/
def routeAfterLLM (msgs : List Msg) : Option Node :=
  conditional_targets (should_call_tool msgs)

/-- `workflow.add_edge("call_tool_node", "call_llm_node")`: the
unconditional edge out of the tool node. -/
def edge_after_call_tool : Node := Node.call_llm_node

/-- The states of one graph run reachable from an initial message log:
the run starts at the initial log (`START → call_llm_node`), and each
node appends its returned update through the `messages` reducer. -/
inductive Reachable (invoke : List Msg → Msg)
    (transport : ToolCall → TransportOutcome)
    (parse : String → Option ParsedTool) : List Msg → List Msg → Prop where
  | refl (ms : List Msg) : Reachable invoke transport parse ms ms
  | llmStep {ms ms' : List Msg} (h : Reachable invoke transport parse ms ms') :
      Reachable invoke transport parse ms (applyUpdate ms' (call_llm_update invoke ms'))
  | toolStep {ms ms' : List Msg} (h : Reachable invoke transport parse ms ms') :
      Reachable invoke transport parse ms (applyUpdate ms' (call_tool transport parse ms'))

/-! ### The two `llm_tools` bindings of graph.py

graph.py assigns `llm_tools` and `llm_with_tools` twice at module level.
Lines 54–161 build the seven-entry math tool list and line 162 binds it
(`llm_with_tools = llm.bind_tools(tools=llm_tools, tool_choice="auto")`).
Lines 163–179 then REASSIGN `llm_tools` to a single-entry list holding
`add_numbers(a: integer, b: integer)` and line 180 REBINDS
`llm_with_tools` to it.  Python executes these in order, so the binding
in effect when `call_llm` later invokes `llm_with_tools` is the second
one.  `llm_tools_v1` embeds the first (shadowed) list, `llm_tools_final`
the second, and `boundToolSchemas` the schemas bound at the last
`bind_tools` call. -/

/-- One property of a tool parameter object:
`"<pname>": {"type": ..., "description": ...}`. -/
structure ParamProp where
  pname : String
  ptype : String
  pdescription : String
deriving DecidableEq

/-- One entry of an `llm_tools` list:
`{"type": "function", "function": {"name": ..., "description": ...,
  "parameters": {"type": "object", "properties": ..., "required": ...}}}`. -/
structure ToolFunction where
  fname : String
  fdescription : String
  properties : List ParamProp
  required : List String
deriving DecidableEq

/-- The first `llm_tools` list (graph.py lines 54–161): the seven
reference math tools. -/
def llm_tools_v1 : List ToolFunction := [
  { fname := "add"
    fdescription := "Adds two numbers and returns the result with steps."
    properties := [
      { pname := "a", ptype := "number", pdescription := "The first number" },
      { pname := "b", ptype := "number", pdescription := "The second number" }]
    required := ["a", "b"] },
  { fname := "subtract"
    fdescription := "Subtracts the second number from the first and returns the result with steps."
    properties := [
      { pname := "a", ptype := "number", pdescription := "The first number" },
      { pname := "b", ptype := "number", pdescription := "The number to subtract" }]
    required := ["a", "b"] },
  { fname := "multiply"
    fdescription := "Multiplies two numbers and returns the result with steps."
    properties := [
      { pname := "a", ptype := "number", pdescription := "The first number" },
      { pname := "b", ptype := "number", pdescription := "The second number" }]
    required := ["a", "b"] },
  { fname := "divide"
    fdescription := "Divides the first number by the second and returns the result with steps."
    properties := [
      { pname := "a", ptype := "number", pdescription := "The numerator" },
      { pname := "b", ptype := "number", pdescription := "The denominator (cannot be zero)" }]
    required := ["a", "b"] },
  { fname := "power"
    fdescription := "Raises a number to a power and returns the result with steps."
    properties := [
      { pname := "base", ptype := "number", pdescription := "The base number" },
      { pname := "exponent", ptype := "number", pdescription := "The exponent" }]
    required := ["base", "exponent"] },
  { fname := "square_root"
    fdescription := "Calculates the square root of a number and returns the result with steps."
    properties := [
      { pname := "number", ptype := "number",
        pdescription := "The number to find the square root of (must be non-negative)" }]
    required := ["number"] },
  { fname := "solve_equation"
    fdescription := "Solves a simple linear equation in the form \x27ax + b = c\x27 and returns the solution with steps."
    properties := [
      { pname := "equation", ptype := "string",
        pdescription := "The equation to solve, e.g., \x272x + 3 = 7\x27" }]
    required := ["equation"] }]

/-- The second `llm_tools` list (graph.py lines 163–179), which
overwrites the first. -/
def llm_tools_final : List ToolFunction := [
  { fname := "add_numbers"
    fdescription := "Adds two integers and returns the result."
    properties := [
      { pname := "a", ptype := "integer", pdescription := "The first number" },
      { pname := "b", ptype := "integer", pdescription := "The second number" }]
    required := ["a", "b"] }]

/-- The schemas bound to the model when `call_llm` runs: the argument of
the LAST `llm.bind_tools(tools=llm_tools, tool_choice="auto")` call
(graph.py line 180), i.e. the reassigned single-entry list. -/
def boundToolSchemas : List ToolFunction := llm_tools_final

/-! ## Helper definitions and lemmas shared by the theorems -/

instance : DecidableEq (Except String ToolOutput) := fun a b =>
  match a, b with
  | .error x, .error y =>
    if h : x = y then .isTrue (by rw [h]) else .isFalse (by simp [h])
  | .ok x, .ok y =>
    if h : x = y then .isTrue (by rw [h]) else .isFalse (by simp [h])
  | .error _, .ok _ => .isFalse (by simp)
  | .ok _, .error _ => .isFalse (by simp)

/-- The `tool_call_id` carried by a message (`""` for message kinds that
have none). -/
def msgToolCallId : Msg → String
  | .tool _ i => i
  | _ => ""

/-- `True` exactly for `ToolMessage` values. -/
def isToolMsg : Msg → Bool
  | .tool _ _ => true
  | _ => false

theorem handle_tool_call_is_tool (transport : ToolCall → TransportOutcome)
    (parse : String → Option ParsedTool) (tc : ToolCall) :
    isToolMsg (handle_tool_call transport parse tc) = true ∧
    msgToolCallId (handle_tool_call transport parse tc) = tc.id := by
  rcases htr : transport tc with e | txt
  · simp [handle_tool_call, htr, isToolMsg, msgToolCallId]
  · rcases hp : parse txt with _ | d <;>
      simp [handle_tool_call, htr, hp, isToolMsg, msgToolCallId]

theorem isSystemMsg_eq_false_of_isAIMsg {m : Msg} (h : isAIMsg m = true) :
    isSystemMsg m = false := by
  cases m <;> simp_all [isAIMsg, isSystemMsg]

theorem isSystemMsg_eq_false_of_isToolMsg {m : Msg} (h : isToolMsg m = true) :
    isSystemMsg m = false := by
  cases m <;> simp_all [isToolMsg, isSystemMsg]

/-! ## Claims -/

/-- C1: the claim says the schemas bound to the model and in effect when
`call_llm` runs are exactly the seven reference math tools.  In the code
the seven-tool list is the FIRST `llm_tools` assignment, but both
`llm_tools` and `llm_with_tools` are immediately reassigned
(graph.py lines 163–180), so the binding in effect at `call_llm` is the
single `add_numbers(a: integer, b: integer)` schema.  This theorem
evaluates both bindings. -/
theorem C1_bound_schemas_are_add_numbers_only :
    boundToolSchemas.map ToolFunction.fname = ["add_numbers"] ∧
    llm_tools_v1.map ToolFunction.fname =
      ["add", "subtract", "multiply", "divide", "power", "square_root", "solve_equation"] ∧
    boundToolSchemas ≠ llm_tools_v1 := by
  refine ⟨rfl, rfl, ?_⟩
  decide

/-- C2: for every assistant message carrying `N` tool calls, `call_tool`
appends exactly `N` `ToolMessage`s, produced in the listed order, and
the `i`-th result's `tool_call_id` equals the id of the `i`-th call:
the list of correlation ids of the results IS the list of ids of the
calls.  Holds for every transport and JSON decoder. -/
theorem C2_call_tool_one_result_per_call_in_order
    (transport : ToolCall → TransportOutcome) (parse : String → Option ParsedTool)
    (msgs : List Msg) (content : String) (tcs : List ToolCall) :
    (call_tool transport parse (msgs ++ [Msg.ai content tcs])).length = tcs.length ∧
    (call_tool transport parse (msgs ++ [Msg.ai content tcs])).map msgToolCallId =
      tcs.map ToolCall.id ∧
    (call_tool transport parse (msgs ++ [Msg.ai content tcs])).all isToolMsg = true := by
  have hlast : lastToolCalls (msgs ++ [Msg.ai content tcs]) = tcs := by
    simp [lastToolCalls]
  unfold call_tool
  rw [hlast]
  refine ⟨by simp, ?_, ?_⟩
  · rw [List.map_map]
    apply List.map_congr_left
    intro tc _
    exact (handle_tool_call_is_tool transport parse tc).2
  · rw [List.all_eq_true]
    intro m hm
    rcases List.mem_map.mp hm with ⟨tc, _, rfl⟩
    exact (handle_tool_call_is_tool transport parse tc).1

/-- C5: after `call_llm` appends the model response, the conditional
edge sends control to `END` exactly when the response carries zero tool
calls, and to the tool node otherwise; the unconditional edge out of
the tool node returns to the model node; and the terminal response is
appended to the stored state as the final assistant message. -/
theorem C5_loop_terminates_iff_no_tool_calls
    (msgs : List Msg) (content : String) (tcs : List ToolCall) :
    routeAfterLLM (applyUpdate msgs [Msg.ai content tcs]) =
      some (if tcs.isEmpty then Node.endNode else Node.call_tool_node) ∧
    edge_after_call_tool = Node.call_llm_node ∧
    applyUpdate msgs [Msg.ai content tcs] = msgs ++ [Msg.ai content tcs] := by
  refine ⟨?_, rfl, rfl⟩
  have hlast : (applyUpdate msgs [Msg.ai content tcs]).getLast? = some (Msg.ai content tcs) := by
    simp [applyUpdate]
  unfold routeAfterLLM should_call_tool
  rw [hlast]
  cases tcs <;> simp [conditional_targets, ROUTE_END]

/-- C7 counterexample: when the tool transport fails for an absent tool,
the message `call_tool` records is `"Error calling tool <name>: <cause>"`,
never the string `"unknown tool: <name>"` the claim states. -/
theorem C7_counterexample :
    handle_tool_call (fun _ => .raised "Tool not found")
        (fun _ => none) { id := "call_1", name := "foo", args := [] } =
      Msg.tool "Error calling tool foo: Tool not found" "call_1" ∧
    handle_tool_call (fun _ => .raised "Tool not found")
        (fun _ => none) { id := "call_1", name := "foo", args := [] } ≠
      Msg.tool "unknown tool: foo" "call_1" := by
  exact ⟨rfl, by decide⟩

/-- C7 (amended): when the lookup or invocation of a named tool raises —
including a lookup failure for a tool absent from the registry — the
executor produces a `ToolMessage` whose content is exactly
`"Error calling tool <name>: <cause>"`, correlated to the call's id;
the raw failure is absorbed into that message and never propagated. -/
theorem C7_unknown_tool_message (e : String) (parse : String → Option ParsedTool)
    (tc : ToolCall) :
    handle_tool_call (fun _ => .raised e) parse tc =
      Msg.tool ("Error calling tool " ++ tc.name ++ ": " ++ e) tc.id := rfl

/-- C10: `call_llm` prepends the system prompt only to its
invocation-local message list, and the updates appended by the loop's
nodes are a model response (an `AIMessage`) and `ToolMessage`s, so from
any initial state without a `SystemMessage` every reachable stored
state is still free of `SystemMessage`s, and on every model call the
prompt is prepended afresh to the local list. -/
theorem C10_state_never_acquires_system_message
    (invoke : List Msg → Msg) (transport : ToolCall → TransportOutcome)
    (parse : String → Option ParsedTool)
    (hai : ∀ ms, isAIMsg (invoke ms) = true)
    (ms0 ms : List Msg) (h0 : hasSystem ms0 = false)
    (hreach : Reachable invoke transport parse ms0 ms) :
    hasSystem ms = false ∧
    call_llm_input ms = Msg.system MATH_SYSTEM_PROMPT :: ms := by
  have key : hasSystem ms = false := by
    induction hreach with
    | refl => exact h0
    | llmStep h ih =>
      simp only [applyUpdate, call_llm_update, hasSystem, List.any_append, List.any_cons,
        List.any_nil, Bool.or_false, Bool.or_eq_false_iff]
      exact ⟨ih, isSystemMsg_eq_false_of_isAIMsg (hai _)⟩
    | toolStep h ih =>
      simp only [applyUpdate, hasSystem, List.any_append, Bool.or_eq_false_iff]
      refine ⟨ih, ?_⟩
      rw [List.any_eq_false]
      intro m hm
      rcases List.mem_map.mp hm with ⟨tc, _, rfl⟩
      simp [isSystemMsg_eq_false_of_isToolMsg (handle_tool_call_is_tool transport parse tc).1]
  exact ⟨key, by simp [call_llm_input, key]⟩

/-- C10 witness: a concrete run — a user message followed by one model
turn of a client that always answers with a plain assistant message —
stays free of `SystemMessage`s, and the next model call would again
prepend the prompt locally. -/
theorem C10_witness :
    hasSystem [Msg.user "hi", Msg.ai "hello" []] = false ∧
    call_llm_input [Msg.user "hi", Msg.ai "hello" []] =
      Msg.system MATH_SYSTEM_PROMPT :: [Msg.user "hi", Msg.ai "hello" []] :=
  C10_state_never_acquires_system_message
    (fun _ => Msg.ai "hello" []) (fun _ => .raised "") (fun _ => none)
    (fun _ => rfl) [Msg.user "hi"] _ rfl
    (.llmStep (.refl _))

/-- C3 counterexample: the claim says `divide(a, 0)` RETURNS an error
ToolResult and never raises, but the handler raises
`ValueError("Cannot divide by zero")` (embedded as `Except.error`); no
result dictionary of any kind is produced by the handler itself. -/
theorem C3_counterexample :
    divide 1 0 = Except.error "Cannot divide by zero" ∧
    (divide 1 0).toOption = none := by
  exact ⟨by decide, by decide⟩

/-- C3 (amended): `divide(a, 0)` raises
`ValueError("Cannot divide by zero")` for every `a`, and
`square_root(x)` raises for every `x < 0` — neither produces a numeric,
infinite or NaN result — and any error raised by a tool invocation is
caught by the orchestrator's `call_tool`, which converts it into an
error `ToolMessage` instead of letting it escape. -/
theorem C3_domain_errors_raise_and_are_absorbed
    (a x : ℚ) (hx : x < 0) (e : String)
    (parse : String → Option ParsedTool) (tc : ToolCall) :
    divide a 0 = Except.error "Cannot divide by zero" ∧
    square_root x = Except.error "Cannot calculate square root of a negative number" ∧
    handle_tool_call (fun _ => .raised e) parse tc =
      Msg.tool ("Error calling tool " ++ tc.name ++ ": " ++ e) tc.id := by
  refine ⟨by simp [divide], by simp [square_root, hx], rfl⟩

/-- C3 witness: the amended statement at `a = 1`, `x = -1`, with a
transport surfacing the raised divide error. -/
theorem C3_witness :
    divide 1 0 = Except.error "Cannot divide by zero" ∧
    square_root (-1) = Except.error "Cannot calculate square root of a negative number" ∧
    handle_tool_call (fun _ => .raised "Cannot divide by zero") (fun _ => none)
        { id := "call_1", name := "divide", args := [] } =
      Msg.tool "Error calling tool divide: Cannot divide by zero" "call_1" :=
  C3_domain_errors_raise_and_are_absorbed 1 (-1) (by norm_num)
    "Cannot divide by zero" (fun _ => none) { id := "call_1", name := "divide", args := [] }

/-- C4: the claim says the coefficient defaults to 1 when omitted, so
`solve_equation("x + 3 = 7")` yields `4.0`.  In the code the guard is
`if 'x' in a_part`, which is true for the bare `a_part = "x"`, so the
handler computes `float("")` — a `ValueError` caught into the error
dictionary — and the `else 1.0` default (the visible intent) is
unreachable in that case.  `solve_equation("2x + 3 = 7") = 2.0` does
hold.  This theorem evaluates the code at both inputs. -/
theorem C4_implicit_coefficient_fails :
    solve_equation "2x + 3 = 7".data = SolveRes.ok "2x + 3 = 7".data 2 [
      "Step 1: Start with the equation: 2x + 3 = 7",
      "Step 2: Isolate the variable x",
      "2x+3 = 7",
      "2x-3 = 7 - 3.0",
      "2.0x = 4.0",
      "x = (7.0 - 3.0) / 2.0",
      "x = 2.0",
      "Final solution: x = 2.0"] ∧
    solve_equation "x + 3 = 7".data =
      SolveRes.err "x + 3 = 7".data (floatErr []) failMsg ∧
    floatErr [] = "could not convert string to float: \x27\x27" := by
  exact ⟨by with_unfolding_all decide, by decide, rfl⟩

/-- C9: when the additive branch parses a coefficient of zero and both
remaining floats parse, the division `(c - b) / a` raises Python's
`ZeroDivisionError("float division by zero")`, which the surrounding
handler catches into the error dictionary — no infinite result and no
escaping exception. -/
theorem C9_zero_coefficient_is_error
    (equation left right : PyStr) (b c : ℚ)
    (hsplit : charSplit '=' (removeChar ' ' equation) = [left, right])
    (hx : containsChar 'x' left = true)
    (hplus : containsChar '+' left = true)
    (ha : (if containsChar 'x' (splitOnceChar '+' left).1 then
            pyFloat (removeChar 'x' (splitOnceChar '+' left).1) else some 1) = some 0)
    (hb : pyFloat (splitOnceChar '+' left).2 = some b)
    (hc : pyFloat right = some c) :
    solve_equation equation = SolveRes.err equation "float division by zero" failMsg := by
  unfold solve_equation
  rw [hsplit]
  show solve_core equation left right = _
  unfold solve_core
  rw [hx, hplus]
  simp only [Bool.not_true, Bool.false_eq_true, if_false, if_true]
  unfold solve_additive
  simp only [ha, hb, hc]
  simp

/-- C9 witness: the concrete equation `"0x + 3 = 7"` produces the
`float division by zero` error dictionary. -/
theorem C9_witness :
    solve_equation "0x + 3 = 7".data =
      SolveRes.err "0x + 3 = 7".data "float division by zero" failMsg :=
  C9_zero_coefficient_is_error "0x + 3 = 7".data "0x+3".data "7".data 3 7
    (by decide) (by decide) (by decide) (by with_unfolding_all decide)
    (by with_unfolding_all decide) (by with_unfolding_all decide)

/-- The last element of a step list (structural version of
`List.getLast?`, kept kernel-reducible). -/
def lastStr : List String → Option String
  | [] => none
  | [s] => some s
  | _ :: s :: rest => lastStr (s :: rest)

/-- The structural shape required by `solve_equation`'s grammar, read
off the code's three explicit shape checks (and matching the spec's own
enumeration of rejected shapes: wrong number of `=`-separated parts,
missing variable on the left, operator other than the single `+`): the
space-stripped equation splits on `=` into exactly two parts, and the
left part contains `x` and `+`.  When this shape holds the handler goes
on to lex the three numbers — and can still answer with an error
dictionary (unparseable number, zero coefficient) — but whenever the
shape fails it raises one of its three descriptive `ValueError`s before
any `float()` call, and the surrounding `except` turns that into the
error dictionary. -/
def additiveShape (equation : PyStr) : Bool :=
  match charSplit '=' (removeChar ' ' equation) with
  | [left, _] => containsChar 'x' left && containsChar '+' left
  | _ => false

/-- C6: every equation string outside the single-`+` additive shape
with the variable on the left — no `=` or more than one `=`, no `x` on
the left side, or no `+` on the left side (e.g. the subtraction form
`2x - 3 = 7`) — makes `solve_equation` return the error dictionary
with its fixed `message` field and a non-empty descriptive `error`
field; the handler's catch-all `except` (the embedding is total) means
no exception escapes to the caller.  These three checks run before any
number is lexed, so the theorem is independent of `float()`. -/
theorem C6_non_additive_shapes_error
    (equation : PyStr) (h : additiveShape equation = false) :
    ∃ e, solve_equation equation = SolveRes.err equation e failMsg ∧ e ≠ "" := by
  rcases hq : charSplit '=' (removeChar ' ' equation) with _ | ⟨left, _ | ⟨right, _ | ⟨t, rest⟩⟩⟩
  case nil =>
    exact ⟨_, by unfold solve_equation; rw [hq], by decide⟩
  case cons.nil =>
    exact ⟨_, by unfold solve_equation; rw [hq], by decide⟩
  case cons.cons.cons =>
    exact ⟨_, by unfold solve_equation; rw [hq], by decide⟩
  case cons.cons.nil =>
    have hse : solve_equation equation = solve_core equation left right := by
      unfold solve_equation; rw [hq]
    simp only [additiveShape, hq] at h
    cases hx : containsChar 'x' left with
    | false =>
      refine ⟨"Equation must contain \x27x\x27 on the left side", ?_, by decide⟩
      rw [hse]; unfold solve_core; rw [hx]; simp
    | true =>
      cases hp : containsChar '+' left with
      | false =>
        refine ⟨"Unsupported equation format", ?_, by decide⟩
        rw [hse]; unfold solve_core; rw [hx, hp]; simp
      | true =>
        exact absurd h (by simp [hx, hp])

/-- C6 witness: `"2x - 3 = 7"` (the subtraction form) is outside the
additive grammar and yields an error dictionary with a non-empty
description — concretely, `Unsupported equation format`. -/
theorem C6_witness :
    additiveShape "2x - 3 = 7".data = false ∧
    (∃ e, solve_equation "2x - 3 = 7".data =
        SolveRes.err "2x - 3 = 7".data e failMsg ∧ e ≠ "") :=
  ⟨by decide, C6_non_additive_shapes_error "2x - 3 = 7".data (by decide)⟩

/-! ### C8: step traces of successful results -/

/-- The step-trace contract of a math handler result: either the
invocation raised, or the returned dictionary's `steps` list is
non-empty and ends with the `Final result:` line stating the computed
value. -/
def stepContract (r : Except String ToolOutput) : Bool :=
  match r with
  | .error _ => true
  | .ok out =>
    (! out.steps.isEmpty) &&
    (lastStr out.steps == some ("Final result: " ++ fmtNum out.result))

/-- The same contract for `solve_equation`, whose final line is
`Final solution: x = <value>`. -/
def solveStepContract (r : SolveRes) : Bool :=
  match r with
  | .err _ _ _ => true
  | .ok _ x steps =>
    (! steps.isEmpty) &&
    (lastStr steps == some ("Final solution: x = " ++ fmtNum x))

theorem solveStepContract_core (equation left right : PyStr) :
    solveStepContract (solve_core equation left right) = true := by
  unfold solve_core
  split
  · rfl
  · split
    · simp only [solve_additive]
      split
      · rfl
      · rfl
      · rfl
      · split
        · rfl
        · simp [solveStepContract, lastStr]
    · rfl

/-- C8: every successful result of each of the seven tools — any
arguments for which the handler returns its success dictionary rather
than raising or erroring — carries a non-empty `steps` list whose last
entry is the final-result line stating the computed value
(`Final result: <value>`, resp. `Final solution: x = <value>`). -/
theorem C8_success_steps_end_with_final_result
    (a b base exponent number : ℚ) (equation : PyStr) :
    stepContract (add a b) = true ∧
    stepContract (subtract a b) = true ∧
    stepContract (multiply a b) = true ∧
    stepContract (divide a b) = true ∧
    stepContract (power base exponent) = true ∧
    stepContract (square_root number) = true ∧
    solveStepContract (solve_equation equation) = true := by
  refine ⟨?_, ?_, ?_, ?_, ?_, ?_, ?_⟩
  · simp [add, stepContract, lastStr]
  · simp [subtract, stepContract, lastStr]
  · simp [multiply, stepContract, lastStr]
  · unfold divide
    split
    · rfl
    · simp [stepContract, lastStr]
  · unfold power
    split
    · rfl
    · simp [stepContract, lastStr]
  · unfold square_root
    split
    · rfl
    · simp [stepContract, lastStr]
  · unfold solve_equation
    split
    · exact solveStepContract_core _ _ _
    · rfl

end AgentTemplate
